import Mathlib

/-!
Verification of the do-core1 instruction decoder and single-step executor.

The executable under `src/main.rs` supplies the executor (the `add` and
`xor` helpers plus the opcode dispatch in `main`) and the unit tests of the
decoder. The decoder itself (`Instruction::disassemble`, `OpCode`, `Error`,
`MAX_REGISTER_INDEX`) lives in the `do_core` library crate, which is not part
of the sources at hand; those definitions are modelled from the design
specification, with the concrete numeric choices (field widths, opcode
numbers, register count) pinned by the specification's concrete scenarios and
by the unit tests in `src/main.rs`.

Machine integers are modelled as `Nat` with explicit `2 ^ 32` bounds where
unsigned 32-bit overflow matters. Mutation of the register file is modelled
by explicit state passing: an execution step consumes a register list and
produces a result that carries the register list as left at the end of the
step (unchanged on the error and abnormal-termination paths, since the Rust
code propagates the error, or aborts, before any write).
-/

namespace DoCore

/-- Modelled from the spec: `MAX_REGISTER_INDEX`, the architectural constant
equal to the register file size minus one (spec section 3). The constant is
declared in the `do_core` library, which is not under `src/`; its value 7 is
pinned by the unit tests in `src/main.rs` (operand index 7 decodes
successfully in `test_instruction_disassemble_add_r7_r2`, while indices 8 and
10 are rejected in `test_instruction_disassemble_add_r0_r10` and
`test_instruction_disassemble_add_r9_r1`). -/
def MAX_REGISTER_INDEX : Nat := 7

/-- Modelled from the spec: the `OpCode` enumeration (spec section 3) —
`ADD`, `XOR`, `LDW`, `STW`, "plus any other value being
invalid/unrecognized". Unrecognized numeric codes are representable (carrying
the offending code) because the spec states they are "treated as successfully
decoded but rejected later at execution time" (spec section 4.1). -/
inductive OpCode where
  | LDW
  | STW
  | ADD
  | XOR
  | UNKNOWN (code : Nat)
  deriving DecidableEq, Repr

/-- Modelled from the spec: the numeric opcode mapping used by the decoder
(not under `src/`). The numeric values are pinned by the unit tests in
`src/main.rs`: word `0x0800` (opcode field 0) decodes to `LDW`, `0x0141`
(field 1) to `STW`, `0x1842` (field 2) to `ADD`, `0x1883` (field 3) to
`XOR`. Any other value decodes to the unrecognized marker, per spec
section 4.1. -/
def OpCode.decode (code : Nat) : OpCode :=
  match code with
  | 0x00 => OpCode.LDW
  | 0x01 => OpCode.STW
  | 0x02 => OpCode.ADD
  | 0x03 => OpCode.XOR
  | c => OpCode.UNKNOWN c

/-- Modelled from the spec: the error taxonomy (spec section 7). The decode
error carries the offending field identity and value; the execution error
carries both operand values (the latter also visible in `src/main.rs`,
`Error::AdditionOverflow(op0, op1)`). -/
inductive Error where
  | Op0OutOfRange (value : Nat)
  | Op1OutOfRange (value : Nat)
  | AdditionOverflow (op0 op1 : Nat)
  deriving DecidableEq, Repr

/-- Modelled from the spec: the decoded instruction record
{ opcode, op0, op1 } (spec section 3). Register indices are `Nat`
(`u8` in the source, always small after masking). -/
structure Instruction where
  opcode : OpCode
  op0 : Nat
  op1 : Nat
  deriving DecidableEq, Repr

/-- Field op0 as the spec's bit-layout table (spec section 3) describes it:
bits 6–13 of the word. Stated only for comparison with the decoder's actual
extraction; the table contradicts the spec's own concrete scenarios and the
unit tests in `src/main.rs`. -/
def op0_specLayout (insn : Nat) : Nat := (insn >>> 6) &&& 0xff

/-- Field op1 as the spec's bit-layout table (spec section 3) describes it:
bits 14–21 of the word. Stated only for comparison with the decoder's actual
extraction. -/
def op1_specLayout (insn : Nat) : Nat := (insn >>> 14) &&& 0xff

/-- Modelled from the spec: `Instruction::disassemble` of the `do_core`
library, which is not under `src/`. Extracts opcode and two operand fields
from fixed bit ranges, then validates op0 and op1 against
`MAX_REGISTER_INDEX` independently, either violation failing the whole
decode with an error naming the field and value (spec section 4.1). The bit
ranges — opcode bits 0–5, op0 bits 6–10, op1 bits 11–15 — follow the spec's
concrete scenarios (section 8) and the unit tests in `src/main.rs`
(`0x1842` → ADD op0=1 op1=3, `0x0141` → STW op0=5 op1=0, etc.); the spec's
layout table (op0 bits 6–13, op1 bits 14–21) contradicts those and is
refuted below. -/
def Instruction.disassemble (insn : Nat) : Except Error Instruction :=
  let opcode := OpCode.decode (insn &&& 0x3f)
  let op0 := (insn >>> 6) &&& 0x1f
  let op1 := (insn >>> 11) &&& 0x1f
  if op0 > MAX_REGISTER_INDEX then
    Except.error (Error.Op0OutOfRange op0)
  else if op1 > MAX_REGISTER_INDEX then
    Except.error (Error.Op1OutOfRange op1)
  else
    Except.ok { opcode := opcode, op0 := op0, op1 := op1 }

/-- From `src/main.rs`, `fn add`: checked 32-bit unsigned addition. On a sum
that does not fit in 32 bits, fails with `AdditionOverflow` carrying both
operands. Faithful to `u32::checked_add` for operands below `2 ^ 32`. -/
def add (op0 op1 : Nat) : Except Error Nat :=
  if op0 + op1 < 2 ^ 32 then Except.ok (op0 + op1)
  else Except.error (Error.AdditionOverflow op0 op1)

/-- From `src/main.rs`, `fn xor`: bitwise exclusive-or. -/
def xor (op0 op1 : Nat) : Nat := op0 ^^^ op1

/-- Panic message of the executor's catch-all opcode arm in `src/main.rs`. -/
def unknownOpcodeMsg : String := "Unknown opcode"

/-- Panic message of a Rust out-of-bounds array index. -/
def oobMsg : String := "index out of bounds"

/-- Result of one execution step. `ok` carries the register file after the
single write; `err` and `panicked` carry the register file as it stood when
the step failed (the Rust code returns the error, or aborts, before writing). -/
inductive ExecResult where
  | ok (registers : List Nat)
  | err (e : Error) (registers : List Nat)
  | panicked (msg : String) (registers : List Nat)
  deriving DecidableEq, Repr

/-- From `src/main.rs`, the opcode dispatch in `main` (the Executor):
`ADD` and `XOR` read `registers[op0]` and `registers[op1]` and overwrite
`registers[op0]` with the result (`ADD` propagating the overflow error with
`?` before any write); any other opcode aborts with
`panic!("Unknown opcode ...")`. An out-of-bounds register index aborts the
way a Rust index expression does. -/
def execute (insn : Instruction) (registers : List Nat) : ExecResult :=
  match insn.opcode with
  | OpCode.ADD =>
    match registers[insn.op0]?, registers[insn.op1]? with
    | some r0, some r1 =>
      match add r0 r1 with
      | Except.ok v => ExecResult.ok (registers.set insn.op0 v)
      | Except.error e => ExecResult.err e registers
    | _, _ => ExecResult.panicked oobMsg registers
  | OpCode.XOR =>
    match registers[insn.op0]?, registers[insn.op1]? with
    | some r0, some r1 => ExecResult.ok (registers.set insn.op0 (xor r0 r1))
    | _, _ => ExecResult.panicked oobMsg registers
  | _ => ExecResult.panicked unknownOpcodeMsg registers

/-- From `src/main.rs`, `main`: the demo register file, `R[i] = i * 0x10`
for the `MAX_REGISTER_INDEX + 1` registers. -/
def initialRegisters : List Nat :=
  (List.range (MAX_REGISTER_INDEX + 1)).map (fun i => i * 0x10)

instance : DecidableEq (Except Error Instruction) := fun a b =>
  match a, b with
  | Except.ok x, Except.ok y =>
    if h : x = y then Decidable.isTrue (by rw [h])
    else Decidable.isFalse (by intro hc; cases hc; exact h rfl)
  | Except.error x, Except.error y =>
    if h : x = y then Decidable.isTrue (by rw [h])
    else Decidable.isFalse (by intro hc; cases hc; exact h rfl)
  | Except.ok _, Except.error _ => Decidable.isFalse (by intro hc; cases hc)
  | Except.error _, Except.ok _ => Decidable.isFalse (by intro hc; cases hc)

/-- The decoder agrees with `test_instruction_disassemble_add_r1_r3` in
`src/main.rs`. -/
theorem test_add_r1_r3 : Instruction.disassemble 0x1842 =
    Except.ok { opcode := OpCode.ADD, op0 := 1, op1 := 3 } := by decide

/-- The decoder agrees with `test_instruction_disassemble_add_r7_r2` in
`src/main.rs`. -/
theorem test_add_r7_r2 : Instruction.disassemble 0x11c2 =
    Except.ok { opcode := OpCode.ADD, op0 := 7, op1 := 2 } := by decide

/-- The decoder agrees with `test_instruction_disassemble_xor_r2_r3` in
`src/main.rs`. -/
theorem test_xor_r2_r3 : Instruction.disassemble 0x1883 =
    Except.ok { opcode := OpCode.XOR, op0 := 2, op1 := 3 } := by decide

/-- The decoder agrees with `test_instruction_disassemble_ldw_r0_r1` in
`src/main.rs`. -/
theorem test_ldw_r0_r1 : Instruction.disassemble 0x0800 =
    Except.ok { opcode := OpCode.LDW, op0 := 0, op1 := 1 } := by decide

/-- The decoder agrees with `test_instruction_disassemble_stw_r5_r0` in
`src/main.rs`. -/
theorem test_stw_r5_r0 : Instruction.disassemble 0x0141 =
    Except.ok { opcode := OpCode.STW, op0 := 5, op1 := 0 } := by decide

/-- The decoder agrees with `test_instruction_disassemble_add_r9_r1` in
`src/main.rs`. -/
theorem test_add_r9_r1 : (Instruction.disassemble 0x5002).isOk = false := by decide

/-- The decoder agrees with `test_instruction_disassemble_add_r0_r10` in
`src/main.rs`. -/
theorem test_add_r0_r10 : (Instruction.disassemble 0x20a).isOk = false := by decide

/-- The executor agrees with the spec's concrete XOR scenario: word `0x1883`
against the demo register file leaves `0x10` in register 2. -/
theorem scenario_xor_r2_r3 :
    execute { opcode := OpCode.XOR, op0 := 2, op1 := 3 } initialRegisters
      = ExecResult.ok [0x00, 0x10, 0x10, 0x30, 0x40, 0x50, 0x60, 0x70] := by decide

/-- Unfolding lemma: an ADD step with both register reads succeeding reduces
to the checked addition. -/
theorem execute_add_eq (o0 o1 : Nat) (registers : List Nat) (r0 r1 : Nat)
    (h0 : registers[o0]? = some r0) (h1 : registers[o1]? = some r1) :
    execute { opcode := OpCode.ADD, op0 := o0, op1 := o1 } registers =
      match add r0 r1 with
      | Except.ok v => ExecResult.ok (registers.set o0 v)
      | Except.error e => ExecResult.err e registers := by
  show (match registers[o0]?, registers[o1]? with
        | some r0, some r1 =>
          match add r0 r1 with
          | Except.ok v => ExecResult.ok (registers.set o0 v)
          | Except.error e => ExecResult.err e registers
        | _, _ => ExecResult.panicked oobMsg registers) = _
  rw [h0, h1]

/-- Unfolding lemma: a XOR step with both register reads succeeding reduces
to the bitwise exclusive-or write. -/
theorem execute_xor_eq (o0 o1 : Nat) (registers : List Nat) (r0 r1 : Nat)
    (h0 : registers[o0]? = some r0) (h1 : registers[o1]? = some r1) :
    execute { opcode := OpCode.XOR, op0 := o0, op1 := o1 } registers =
      ExecResult.ok (registers.set o0 (xor r0 r1)) := by
  show (match registers[o0]?, registers[o1]? with
        | some r0, some r1 => ExecResult.ok (registers.set o0 (xor r0 r1))
        | _, _ => ExecResult.panicked oobMsg registers) = _
  rw [h0, h1]

/-- A successful optional read implies the index is within bounds. -/
theorem lt_length_of_read (registers : List Nat) (i r : Nat)
    (h : registers[i]? = some r) : i < registers.length := by
  by_contra hge
  rw [List.getElem?_eq_none (Nat.le_of_not_lt hge)] at h
  cases h

/-- Unfolding lemma: on a word whose op0 field (bits 6–10) and op1 field
(bits 11–15) are both within range, the decoder succeeds with exactly the
extracted fields. -/
theorem disassemble_ok_of_fields_le (w : Nat)
    (h0 : (w >>> 6) &&& 0x1f ≤ MAX_REGISTER_INDEX)
    (h1 : (w >>> 11) &&& 0x1f ≤ MAX_REGISTER_INDEX) :
    Instruction.disassemble w =
      Except.ok { opcode := OpCode.decode (w &&& 0x3f),
                  op0 := (w >>> 6) &&& 0x1f,
                  op1 := (w >>> 11) &&& 0x1f } := by
  unfold Instruction.disassemble
  simp [Nat.not_lt.mpr h0, Nat.not_lt.mpr h1]

/-- C1 counterexample: the claim's bit layout (op0 at bits 6–13, op1 at bits
14–21) is refuted at word `0x4000`. Per that layout op0 = 0 and op1 = 1 are
both within range, so the claim asserts `disassemble` succeeds with those
operands; the decoder instead extracts op1 = 8 from bits 11–15 and rejects
the word as out of range. -/
theorem disassemble_spec_layout_refuted :
    op0_specLayout 0x4000 ≤ MAX_REGISTER_INDEX ∧
    op1_specLayout 0x4000 ≤ MAX_REGISTER_INDEX ∧
    Instruction.disassemble 0x4000 = Except.error (Error.Op1OutOfRange 8) :=
  ⟨by decide, by decide, by decide⟩

/-- C1 (amended): for every word whose op0 field (bits 6–10) and op1 field
(bits 11–15) are both ≤ `MAX_REGISTER_INDEX`, `disassemble` succeeds and the
returned instruction's op0 and op1 exactly equal those bit-extracted field
values (and the opcode is the decoded bits 0–5). -/
theorem disassemble_extracts_fields (w : Nat)
    (h0 : (w >>> 6) &&& 0x1f ≤ MAX_REGISTER_INDEX)
    (h1 : (w >>> 11) &&& 0x1f ≤ MAX_REGISTER_INDEX) :
    Instruction.disassemble w =
      Except.ok { opcode := OpCode.decode (w &&& 0x3f),
                  op0 := (w >>> 6) &&& 0x1f,
                  op1 := (w >>> 11) &&& 0x1f } :=
  disassemble_ok_of_fields_le w h0 h1

/-- C1 witness: the amended extraction theorem at the source's own test word
`0x1842` (ADD, op0 = 1, op1 = 3). -/
theorem disassemble_extracts_fields_witness :
    Instruction.disassemble 0x1842 =
      Except.ok { opcode := OpCode.decode (0x1842 &&& 0x3f),
                  op0 := (0x1842 >>> 6) &&& 0x1f,
                  op1 := (0x1842 >>> 11) &&& 0x1f } :=
  disassemble_extracts_fields 0x1842 (by decide) (by decide)

/-- C3: for every word whose extracted op0 field or extracted op1 field
exceeds `MAX_REGISTER_INDEX`, `disassemble` fails with a
register-index-out-of-range error naming the offending field and value, so
no instruction with an out-of-range index is ever produced. -/
theorem disassemble_out_of_range_fails (w : Nat)
    (h : MAX_REGISTER_INDEX < (w >>> 6) &&& 0x1f ∨
         MAX_REGISTER_INDEX < (w >>> 11) &&& 0x1f) :
    Instruction.disassemble w =
        Except.error (Error.Op0OutOfRange ((w >>> 6) &&& 0x1f)) ∨
    Instruction.disassemble w =
        Except.error (Error.Op1OutOfRange ((w >>> 11) &&& 0x1f)) := by
  unfold Instruction.disassemble
  rcases h with h | h
  · exact Or.inl (by simp [h])
  · by_cases h0 : MAX_REGISTER_INDEX < (w >>> 6) &&& 0x1f
    · exact Or.inl (by simp [h0])
    · exact Or.inr (by simp [h0, h])

/-- C3 witness: the out-of-range theorem at the source's own test word
`0x5002`, whose op1 field is 10 > 7. -/
theorem disassemble_out_of_range_fails_witness :
    Instruction.disassemble 0x5002 =
        Except.error (Error.Op0OutOfRange ((0x5002 >>> 6) &&& 0x1f)) ∨
    Instruction.disassemble 0x5002 =
        Except.error (Error.Op1OutOfRange ((0x5002 >>> 11) &&& 0x1f)) :=
  disassemble_out_of_range_fails 0x5002 (Or.inr (by decide))

/-- C9: `disassemble` is deterministic and side-effect-free — it is a pure
function of the word, so two calls on the same word yield identical results
(the same decoded instruction or the same error). -/
theorem disassemble_deterministic (w w' : Nat) (h : w = w') :
    Instruction.disassemble w = Instruction.disassemble w' := by
  rw [h]

/-- C9 witness: determinism at the concrete word `0x1842`. -/
theorem disassemble_deterministic_witness :
    Instruction.disassemble 0x1842 = Instruction.disassemble 0x1842 :=
  disassemble_deterministic 0x1842 0x1842 rfl

/-- C7: `disassemble` succeeds on well-formed LDW and STW words with
in-range operand fields, returning the LDW/STW opcode with the extracted
operands; in particular `0x0800` decodes to LDW op0 = 0, op1 = 1 and
`0x0141` decodes to STW op0 = 5, op1 = 0. Rejection of these opcodes happens
only at execution time (the executor aborts on them), not at decode time. -/
theorem disassemble_ldw_stw_succeeds :
    (∀ w : Nat, (w &&& 0x3f = 0x00 ∨ w &&& 0x3f = 0x01) →
      (w >>> 6) &&& 0x1f ≤ MAX_REGISTER_INDEX →
      (w >>> 11) &&& 0x1f ≤ MAX_REGISTER_INDEX →
      ∃ insn, Instruction.disassemble w = Except.ok insn ∧
        (insn.opcode = OpCode.LDW ∨ insn.opcode = OpCode.STW) ∧
        insn.op0 = (w >>> 6) &&& 0x1f ∧ insn.op1 = (w >>> 11) &&& 0x1f) ∧
    Instruction.disassemble 0x0800 =
      Except.ok { opcode := OpCode.LDW, op0 := 0, op1 := 1 } ∧
    Instruction.disassemble 0x0141 =
      Except.ok { opcode := OpCode.STW, op0 := 5, op1 := 0 } ∧
    (∀ registers,
      execute { opcode := OpCode.LDW, op0 := 0, op1 := 1 } registers =
        ExecResult.panicked unknownOpcodeMsg registers ∧
      execute { opcode := OpCode.STW, op0 := 5, op1 := 0 } registers =
        ExecResult.panicked unknownOpcodeMsg registers) := by
  refine ⟨?_, by decide, by decide, fun registers => ⟨rfl, rfl⟩⟩
  intro w hop h0 h1
  refine ⟨_, disassemble_ok_of_fields_le w h0 h1, ?_, rfl, rfl⟩
  rcases hop with hop | hop <;> rw [hop] <;> simp [OpCode.decode]

/-- C7 witness: the general LDW/STW part of the theorem at the concrete word
`0x0800` (opcode field 0, both operand fields in range): the decode
succeeds. -/
theorem disassemble_ldw_stw_succeeds_witness :
    (Instruction.disassemble 0x0800).isOk = true := by
  obtain ⟨insn, h, -, -, -⟩ :=
    disassemble_ldw_stw_succeeds.1 0x0800 (Or.inl (by decide)) (by decide) (by decide)
  rw [h]
  rfl

/-- C2: executing an ADD instruction whose operand sum overflows the
unsigned 32-bit range fails with an addition-overflow error carrying both
operand values, and the register file is left completely unchanged. -/
theorem execute_add_overflow (insn : Instruction) (registers : List Nat) (r0 r1 : Nat)
    (hop : insn.opcode = OpCode.ADD)
    (h0 : registers[insn.op0]? = some r0)
    (h1 : registers[insn.op1]? = some r1)
    (hov : 2 ^ 32 ≤ r0 + r1) :
    execute insn registers =
      ExecResult.err (Error.AdditionOverflow r0 r1) registers := by
  rcases insn with ⟨op, o0, o1⟩
  obtain rfl : op = OpCode.ADD := hop
  rw [execute_add_eq o0 o1 registers r0 r1 h0 h1]
  unfold add
  rw [if_neg (Nat.not_lt.mpr hov)]

/-- C2 witness: the spec's concrete overflow instance — registers[op0] =
`0xFFFFFFFF` and registers[op1] = 1 — fails with the overflow error and the
register file is returned unchanged. -/
theorem execute_add_overflow_witness :
    execute { opcode := OpCode.ADD, op0 := 0, op1 := 1 }
        [0xFFFFFFFF, 1, 0x20, 0x30, 0x40, 0x50, 0x60, 0x70] =
      ExecResult.err (Error.AdditionOverflow 0xFFFFFFFF 1)
        [0xFFFFFFFF, 1, 0x20, 0x30, 0x40, 0x50, 0x60, 0x70] :=
  execute_add_overflow { opcode := OpCode.ADD, op0 := 0, op1 := 1 }
    [0xFFFFFFFF, 1, 0x20, 0x30, 0x40, 0x50, 0x60, 0x70] 0xFFFFFFFF 1
    rfl rfl rfl (by decide)

/-- C4: executing an ADD instruction whose operand sum does not overflow
overwrites registers[op0] with registers[op0] + registers[op1] and leaves
registers[op1] untouched when op1 ≠ op0; when op0 = op1 the single slot ends
up holding twice its prior value, computed once from the prior value. -/
theorem execute_add_success (insn : Instruction) (registers : List Nat) (r0 r1 : Nat)
    (hop : insn.opcode = OpCode.ADD)
    (h0 : registers[insn.op0]? = some r0)
    (h1 : registers[insn.op1]? = some r1)
    (hs : r0 + r1 < 2 ^ 32) :
    execute insn registers = ExecResult.ok (registers.set insn.op0 (r0 + r1)) ∧
    (insn.op1 ≠ insn.op0 →
      (registers.set insn.op0 (r0 + r1))[insn.op1]? = some r1) ∧
    (insn.op1 = insn.op0 →
      (registers.set insn.op0 (r0 + r1))[insn.op0]? = some (2 * r0)) := by
  refine ⟨?_, ?_, ?_⟩
  · rcases insn with ⟨op, o0, o1⟩
    obtain rfl : op = OpCode.ADD := hop
    rw [execute_add_eq o0 o1 registers r0 r1 h0 h1]
    unfold add
    rw [if_pos hs]
  · intro hne
    rw [List.getElem?_set_ne (fun h => hne h.symm), h1]
  · intro heq
    have hr : r1 = r0 := by
      rw [heq, h0] at h1
      exact (Option.some_inj.mp h1).symm
    rw [List.getElem?_set_self (lt_length_of_read registers insn.op0 r0 h0),
      hr, Nat.two_mul]

/-- C4 witness: ADD with op0 = op1 = 2 on the demo register file doubles
register 2 (prior value `0x20`, final value `0x40`). -/
theorem execute_add_success_witness :
    execute { opcode := OpCode.ADD, op0 := 2, op1 := 2 } initialRegisters =
      ExecResult.ok (initialRegisters.set 2 (0x20 + 0x20)) ∧
    (initialRegisters.set 2 (0x20 + 0x20))[2]? = some (2 * 0x20) :=
  have h := execute_add_success { opcode := OpCode.ADD, op0 := 2, op1 := 2 }
    initialRegisters 0x20 0x20 rfl rfl rfl (by decide)
  ⟨h.1, h.2.2 rfl⟩

/-- C5: executing any instruction whose opcode is neither ADD nor XOR (LDW,
STW, or an unrecognized code) terminates abnormally — the executor's
catch-all arm aborts rather than returning an error or silently doing
nothing, and no register is written. -/
theorem execute_unknown_opcode_panics (insn : Instruction) (registers : List Nat)
    (hadd : insn.opcode ≠ OpCode.ADD) (hxor : insn.opcode ≠ OpCode.XOR) :
    execute insn registers = ExecResult.panicked unknownOpcodeMsg registers := by
  rcases insn with ⟨op, o0, o1⟩
  cases op with
  | LDW => rfl
  | STW => rfl
  | ADD => exact absurd rfl hadd
  | XOR => exact absurd rfl hxor
  | UNKNOWN c => rfl

/-- C5 witness: executing the decoded LDW instruction from word `0x0800`
against the demo register file aborts. -/
theorem execute_unknown_opcode_panics_witness :
    execute { opcode := OpCode.LDW, op0 := 0, op1 := 1 } initialRegisters =
      ExecResult.panicked unknownOpcodeMsg initialRegisters :=
  execute_unknown_opcode_panics { opcode := OpCode.LDW, op0 := 0, op1 := 1 }
    initialRegisters (by decide) (by decide)

/-- C8: executing a XOR instruction with op0 = op1 never fails and sets
registers[op0] to 0 (self-XOR always zeroes the register). -/
theorem execute_xor_self_zero (insn : Instruction) (registers : List Nat) (r0 : Nat)
    (hop : insn.opcode = OpCode.XOR)
    (hself : insn.op0 = insn.op1)
    (h0 : registers[insn.op0]? = some r0) :
    execute insn registers = ExecResult.ok (registers.set insn.op0 0) := by
  rcases insn with ⟨op, o0, o1⟩
  obtain rfl : op = OpCode.XOR := hop
  obtain rfl : o0 = o1 := hself
  rw [execute_xor_eq o0 o0 registers r0 r0 h0 h0]
  unfold xor
  rw [Nat.xor_self]

/-- C8 witness: XOR with op0 = op1 = 3 on the demo register file zeroes
register 3. -/
theorem execute_xor_self_zero_witness :
    execute { opcode := OpCode.XOR, op0 := 3, op1 := 3 } initialRegisters =
      ExecResult.ok (initialRegisters.set 3 0) :=
  execute_xor_self_zero { opcode := OpCode.XOR, op0 := 3, op1 := 3 }
    initialRegisters 0x30 rfl rfl rfl

/-- C6: an executed ADD or XOR instruction (with in-range operands) writes at
most the single slot op0: on success every other slot holds exactly its prior
value, and on failure (ADD overflow) the register file is returned with zero
writes. -/
theorem execute_single_write_frame (insn : Instruction) (registers : List Nat)
    (hop : insn.opcode = OpCode.ADD ∨ insn.opcode = OpCode.XOR)
    (h0 : insn.op0 < registers.length) (h1 : insn.op1 < registers.length) :
    (∀ registers', execute insn registers = ExecResult.ok registers' →
      ∀ j, j ≠ insn.op0 → registers'[j]? = registers[j]?) ∧
    (∀ e registers', execute insn registers = ExecResult.err e registers' →
      registers' = registers) := by
  rcases insn with ⟨op, o0, o1⟩
  have hr0 : registers[o0]? = some registers[o0] := List.getElem?_eq_getElem h0
  have hr1 : registers[o1]? = some registers[o1] := List.getElem?_eq_getElem h1
  rcases hop with hop | hop
  · obtain rfl : op = OpCode.ADD := hop
    by_cases hlt : registers[o0] + registers[o1] < 2 ^ 32
    · have hexec : execute { opcode := OpCode.ADD, op0 := o0, op1 := o1 } registers
          = ExecResult.ok (registers.set o0 (registers[o0] + registers[o1])) := by
        rw [execute_add_eq o0 o1 registers _ _ hr0 hr1]
        unfold add
        rw [if_pos hlt]
      refine ⟨?_, ?_⟩
      · intro registers' hok j hj
        rw [hexec] at hok
        cases hok
        exact List.getElem?_set_ne (fun h => hj h.symm)
      · intro e registers' herr
        rw [hexec] at herr
        cases herr
    · have hexec : execute { opcode := OpCode.ADD, op0 := o0, op1 := o1 } registers
          = ExecResult.err
              (Error.AdditionOverflow registers[o0] registers[o1]) registers := by
        rw [execute_add_eq o0 o1 registers _ _ hr0 hr1]
        unfold add
        rw [if_neg hlt]
      refine ⟨?_, ?_⟩
      · intro registers' hok j hj
        rw [hexec] at hok
        cases hok
      · intro e registers' herr
        rw [hexec] at herr
        cases herr
        rfl
  · obtain rfl : op = OpCode.XOR := hop
    have hexec := execute_xor_eq o0 o1 registers _ _ hr0 hr1
    refine ⟨?_, ?_⟩
    · intro registers' hok j hj
      rw [hexec] at hok
      cases hok
      exact List.getElem?_set_ne (fun h => hj h.symm)
    · intro e registers' herr
      rw [hexec] at herr
      cases herr

/-- C6 witness: after ADD op0 = 0, op1 = 1 on the demo register file, slot 1
still holds its prior value. -/
theorem execute_single_write_frame_witness :
    (initialRegisters.set 0 (0x00 + 0x10))[1]? = initialRegisters[1]? :=
  (execute_single_write_frame { opcode := OpCode.ADD, op0 := 0, op1 := 1 }
      initialRegisters (Or.inl rfl) (by decide) (by decide)).1
    (initialRegisters.set 0 (0x00 + 0x10)) (by decide) 1 (by decide)

/-- C10: for every instruction returned by a successful decode and every
register file of the architectural size, both operand indices are within
bounds, so the execute step never aborts on an out-of-bounds register
access (its only possible abort is the unknown-opcode one). -/
theorem decoded_instruction_in_bounds (w : Nat) (insn : Instruction)
    (registers : List Nat)
    (hd : Instruction.disassemble w = Except.ok insn)
    (hlen : registers.length = MAX_REGISTER_INDEX + 1) :
    insn.op0 < registers.length ∧ insn.op1 < registers.length ∧
    ∀ registers', execute insn registers ≠ ExecResult.panicked oobMsg registers' := by
  have hb : insn.op0 ≤ MAX_REGISTER_INDEX ∧ insn.op1 ≤ MAX_REGISTER_INDEX := by
    unfold Instruction.disassemble at hd
    by_cases c0 : (w >>> 6) &&& 0x1f > MAX_REGISTER_INDEX
    · rw [if_pos c0] at hd
      cases hd
    · rw [if_neg c0] at hd
      by_cases c1 : (w >>> 11) &&& 0x1f > MAX_REGISTER_INDEX
      · rw [if_pos c1] at hd
        cases hd
      · rw [if_neg c1] at hd
        cases hd
        exact ⟨Nat.le_of_not_lt c0, Nat.le_of_not_lt c1⟩
  have hb0 : insn.op0 < registers.length := hlen ▸ Nat.lt_succ_of_le hb.1
  have hb1 : insn.op1 < registers.length := hlen ▸ Nat.lt_succ_of_le hb.2
  refine ⟨hb0, hb1, ?_⟩
  rcases insn with ⟨op, o0, o1⟩
  have hr0 : registers[o0]? = some registers[o0] := List.getElem?_eq_getElem hb0
  have hr1 : registers[o1]? = some registers[o1] := List.getElem?_eq_getElem hb1
  intro registers' heq
  cases op with
  | ADD =>
    rw [execute_add_eq o0 o1 registers _ _ hr0 hr1] at heq
    unfold add at heq
    by_cases hlt : registers[o0] + registers[o1] < 2 ^ 32
    · rw [if_pos hlt] at heq
      cases heq
    · rw [if_neg hlt] at heq
      cases heq
  | XOR =>
    rw [execute_xor_eq o0 o1 registers _ _ hr0 hr1] at heq
    cases heq
  | LDW =>
    have hpan : execute { opcode := OpCode.LDW, op0 := o0, op1 := o1 } registers
        = ExecResult.panicked unknownOpcodeMsg registers := rfl
    rw [hpan] at heq
    injection heq with hmsg
    exact absurd hmsg (by decide)
  | STW =>
    have hpan : execute { opcode := OpCode.STW, op0 := o0, op1 := o1 } registers
        = ExecResult.panicked unknownOpcodeMsg registers := rfl
    rw [hpan] at heq
    injection heq with hmsg
    exact absurd hmsg (by decide)
  | UNKNOWN c =>
    have hpan : execute { opcode := OpCode.UNKNOWN c, op0 := o0, op1 := o1 } registers
        = ExecResult.panicked unknownOpcodeMsg registers := rfl
    rw [hpan] at heq
    injection heq with hmsg
    exact absurd hmsg (by decide)

/-- C10 witness: the decoded ADD from the source's test word `0x1842`
accesses only in-bounds registers of the demo register file and its
execution is no out-of-bounds abort. -/
theorem decoded_instruction_in_bounds_witness :
    (1 : Nat) < initialRegisters.length ∧ (3 : Nat) < initialRegisters.length ∧
    execute { opcode := OpCode.ADD, op0 := 1, op1 := 3 } initialRegisters ≠
      ExecResult.panicked oobMsg initialRegisters :=
  have h := decoded_instruction_in_bounds 0x1842
    { opcode := OpCode.ADD, op0 := 1, op1 := 3 } initialRegisters
    (by decide) (by decide)
  ⟨h.1, h.2.1, h.2.2 initialRegisters⟩

end DoCore
